import Mathlib

/-!
Verification development for the `taschenmesser` process supervisor
(`tsm-unitman` and its IPC library).  The Rust sources are shallowly
embedded: pure control flow becomes Lean functions, interactions with the
operating system (spawning children, killing pids, waiting with a time
limit, protobuf parsing and serialisation) become explicit oracle inputs
(`Env`, `Spawned`, `ProtoEnv`), and the shared-memory heap of
`Arc<Mutex<Unit>>` references becomes an explicit store of units addressed
by index.  In this sequential model every `lock`/`try_lock` succeeds; the
lock-poisoning arms of the source are therefore not taken.

The source tree mixes files from several revisions of the repository.
Where a definition that newer files compile against is absent from the
tree (for example the `RestartPolicy::DisabledTemporarily` variant and
`Unit::set_restart_policy`, both used by `unit/unit_manager.rs` but
missing from `unit/restart_policy.rs` and `unit/unit.rs`), the missing
piece is modelled from the specification and marked as such in its doc
comment.
-/

set_option linter.unusedVariables false

namespace Tsm

deriving instance DecidableEq for Except

/-- `ProbeState` from `tsm-unitman/src/unit/probe_state.rs`:
Undefined (probe not configured), Alive, Dead. -/
inductive ProbeState
  | Undefined
  | Alive
  | Dead
  deriving DecidableEq, Repr

/-- `RestartPolicy`.  The variants `Always` and `Never` are the enum of
`tsm-unitman/src/unit/restart_policy.rs`.  The variant
`DisabledTemporarily` is modelled from the spec: it is referenced by
`unit/unit_manager.rs` (`set_restart_policy(RestartPolicy::DisabledTemporarily)`)
and by the spec's data model, but the revision of `restart_policy.rs`
defining it is missing from the tree. -/
inductive RestartPolicy
  | Always
  | Never
  | DisabledTemporarily
  deriving DecidableEq, Repr

/-- A spawned OS child process as the supervisor sees it: its pid and what
a non-blocking `try_wait` would currently report (`none` while the process
is still alive, `some code` once it has exited). -/
structure Child where
  pid : Nat
  exit : Option Int
  deriving DecidableEq, Repr

/-- Behaviour of a probe child handed to `process_control`'s
`controlled().time_limit(..).terminate_for_timeout().wait()`: either it
would run for `duration` seconds and exit with `exitCode`, or the wait
itself fails with an OS error. -/
inductive ChildRun
  | runs (duration : Nat) (exitCode : Nat)
  | osError (msg : String)
  deriving DecidableEq, Repr

/-- Outcome of `Command::spawn` for a probe command: a child (with its
subsequent behaviour) or a spawn error. -/
inductive Spawned
  | ok (c : ChildRun)
  | err (msg : String)
  deriving DecidableEq, Repr

/-- Result of the `process_control` wait used by both probe files:
`Ok(Some(status))` (exited), `Ok(None)` (time limit hit, child
terminated), `Err(e)`. -/
inductive WaitOutcome
  | exited (code : Nat)
  | timedOut
  | waitErr (msg : String)
  deriving DecidableEq, Repr

/-- Semantics of `.controlled().time_limit(Duration::from_secs(limit))
.terminate_for_timeout().wait()`: the child's exit status is returned iff
the child finishes within `limit` seconds, otherwise the child is killed
and `Ok(None)` is returned; an OS error while waiting is `Err`. -/
def controlledWait (limit : Nat) : ChildRun → WaitOutcome
  | ChildRun.runs d code => if d ≤ limit then WaitOutcome.exited code else WaitOutcome.timedOut
  | ChildRun.osError m => WaitOutcome.waitErr m

/-- `LivenessProbe` from `tsm-unitman/src/unit/liveness_probe.rs`.  The
`state`/`stop_requested` fields are behind `Arc<Mutex<..>>` in Rust;
here they are plain fields (all locks succeed in the sequential model). -/
structure LivenessProbe where
  name : String
  executable : String
  arguments : List String
  timeout_s : Nat
  interval_s : Nat
  state : ProbeState
  stop_requested : Bool
  deriving DecidableEq, Repr

namespace LivenessProbe

/-- `LivenessProbe::new`. -/
def new (name executable : String) (arguments : List String)
    (timeout_s interval_s : Nat) : LivenessProbe :=
  { name := name, executable := executable, arguments := arguments,
    timeout_s := timeout_s, interval_s := interval_s,
    state := ProbeState.Undefined, stop_requested := false }

/-- `LivenessProbe::get_state`. -/
def get_state (p : LivenessProbe) : ProbeState := p.state

/-- `LivenessProbe::set_state`. -/
def set_state (p : LivenessProbe) (s : ProbeState) : LivenessProbe :=
  { p with state := s }

/-- `LivenessProbe::request_stop`. -/
def request_stop (p : LivenessProbe) : LivenessProbe :=
  { p with stop_requested := true }

/-- `LivenessProbe::probe` (lines 128-172): spawn the probe command, wait
under `time_limit(Duration::from_secs(self.timeout_s as u64))` (note: the
raw field value, with no special case for 0), then publish `Alive` on exit
code 0, `Dead` on non-zero exit or timeout, `Undefined` on a spawn failure
or an OS error while waiting. -/
def probe (p : LivenessProbe) (sp : Spawned) : LivenessProbe :=
  match sp with
  | Spawned.ok c =>
    match controlledWait p.timeout_s c with
    | WaitOutcome.exited code =>
      if code = 0 then p.set_state ProbeState.Alive else p.set_state ProbeState.Dead
    | WaitOutcome.timedOut => p.set_state ProbeState.Dead
    | WaitOutcome.waitErr _ => p.set_state ProbeState.Undefined
  | Spawned.err _ => p.set_state ProbeState.Undefined

end LivenessProbe

/-- `ProcessProbe` from `tsm-unitman/src/unit/process_probe.rs`: the
command-running probe of that revision (executable, arguments, timeout,
interval).  The time-based `probe_timestamp` bookkeeping is summarised by
passing the result of `is_time_to_probe` as a boolean input. -/
structure ProcessProbe where
  executable : String
  arguments : List String
  timeout_s : Nat
  interval_s : Nat
  deriving DecidableEq, Repr

namespace ProcessProbe

/-- The timeout reinterpretation at `process_probe.rs:103-106`:
`0 => 3600` ("ok, not really a timeout but it is absurdly long enough"),
otherwise the configured value. -/
def effectiveTimeout (timeout_s : Nat) : Nat :=
  match timeout_s with
  | 0 => 3600
  | t => t

/-- `ProcessProbe::probe` (lines 97-147).  `timeToProbe` stands for the
result of `is_time_to_probe`; `sp` for the spawn/wait behaviour of the
probe child.  Returns `Ok(false)` when it is not yet time, `Ok(true)` on
exit code 0 within the (reinterpreted) timeout, and an error string on
non-zero exit, timeout, spawn failure or wait failure. -/
def probe (p : ProcessProbe) (timeToProbe : Bool) (sp : Spawned) : Except String Bool :=
  if ¬ timeToProbe then Except.ok false
  else
    let limit := effectiveTimeout p.timeout_s
    match sp with
    | Spawned.err e =>
      Except.error ("Failed executing command " ++ p.executable ++ ": " ++ e)
    | Spawned.ok c =>
      match controlledWait limit c with
      | WaitOutcome.exited code =>
        if code = 0 then Except.ok true
        else Except.error ("Process exited with non-zero exit code: " ++ toString code)
      | WaitOutcome.timedOut =>
        Except.error ("Process timed out after " ++ toString p.timeout_s ++ " seconds")
      | WaitOutcome.waitErr e =>
        Except.error ("Failed executing command " ++ p.executable ++ ": " ++ e)

end ProcessProbe

/-- `Process` from `tsm-unitman/src/unit/process.rs` (the fields relevant
to its liveness check). -/
structure Process where
  executable : String
  arguments : List String
  uid : Nat
  gid : Nat
  child : Option Child
  start_timestamp : Option Nat
  deriving DecidableEq, Repr

namespace Process

/-- `Process::get_pid`. -/
def get_pid (p : Process) : Option Nat :=
  match p.child with
  | some c => some c.pid
  | none => none

/-- `Process::cleanup` (clears the timestamp and drops the child handle). -/
def cleanup (p : Process) : Process :=
  { p with start_timestamp := none, child := none }

/-- `Process::exit_code` (lines 84-99): a non-blocking reap; when the
child has exited it performs the cleanup and returns the status once. -/
def exit_code (p : Process) : Option Int × Process :=
  match p.child with
  | some c =>
    match c.exit with
    | some code => (some code, p.cleanup)
    | none => (none, p)
  | none => (none, p)

/-- `Process::is_running` (lines 70-82): false when there is no pid,
false when a non-blocking reap yields an exit status, true otherwise. -/
def is_running (p : Process) : Bool × Process :=
  if p.get_pid = none then (false, p)
  else
    let r := p.exit_code
    if r.1.isSome then (false, r.2) else (true, r.2)

end Process

/-- The pure observation underlying `Process::is_running`: a child handle
is present and a non-blocking reap would not report an exit status. -/
def childReportsRunning : Option Child → Bool
  | some c => c.exit.isNone
  | none => false

/-- Modelled from the spec (§3, §4.2): the pid-based `ProcessProbe` that
`unit/unit.rs` constructs with `ProcessProbe::new(name, pid, 5)` and whose
`get_state`/`run`/`request_stop` it calls.  The revision of
`process_probe.rs` defining this probe is missing from the tree (the file
present is the older command-running probe above); per the spec it holds
an immutable `pid` and `interval` and mutable `state` (initially
`Undefined`: "not yet running") and `stop_requested`. -/
structure ProcessProbeSpec where
  name : String
  pid : Nat
  interval_s : Nat
  state : ProbeState
  stop_requested : Bool
  deriving DecidableEq, Repr

namespace ProcessProbeSpec

/-- Modelled from the spec: construction of the pid probe; the state is
`Undefined` until the background task publishes its first observation. -/
def new (name : String) (pid : Nat) (interval_s : Nat) : ProcessProbeSpec :=
  { name := name, pid := pid, interval_s := interval_s,
    state := ProbeState.Undefined, stop_requested := false }

/-- Modelled from the spec: `get_state` returns the published state. -/
def get_state (p : ProcessProbeSpec) : ProbeState := p.state

/-- Modelled from the spec: `request_stop` sets the cancellation flag. -/
def request_stop (p : ProcessProbeSpec) : ProcessProbeSpec :=
  { p with stop_requested := true }

/-- Modelled from the spec (§4.2): one cycle of the background task —
"perform one pid lookup and publish Alive or Dead".  `pidAlive` is the
OS's answer to the lookup.  The task runs asynchronously; the probe state
only changes when one of these cycles executes. -/
def tick (p : ProcessProbeSpec) (pidAlive : Bool) : ProcessProbeSpec :=
  { p with state := if pidAlive then ProbeState.Alive else ProbeState.Dead }

end ProcessProbeSpec

/-- Observable side effects of the unit operations: which OS actions were
taken and which probe background tasks were started (`run()` calls). -/
inductive Event
  | spawnedChild (pid : Nat)
  | childKilled (pid : Nat)
  | processProbeStarted (pid : Nat)
  | livenessProbeStarted
  deriving DecidableEq, Repr

/-- The OS as the unit engine sees it: what `Command::spawn` would return
for a given executable/arguments, and whether `Child::kill` on a pid
succeeds (`none`) or fails with an error message (`some msg`). -/
structure Env where
  spawn : String → List String → Except String Child
  kill : Nat → Option String

/-- `Unit` from `tsm-unitman/src/unit/unit.rs`.  `dependencies` is a
`Vec<UnitRef>` of shared references; here the references are indices into
an explicit store (`Store`). -/
structure Unit where
  name : String
  executable : String
  arguments : List String
  dependencies : List Nat
  restart_policy : RestartPolicy
  uid : Nat
  gid : Nat
  enabled : Bool
  liveness_probe : Option LivenessProbe
  process_probe : Option ProcessProbeSpec
  child : Option Child
  deriving DecidableEq, Repr

/-- The heap of `Arc<Mutex<Unit>>` cells, addressed by index. -/
def Store := List Unit

instance : DecidableEq Store := inferInstanceAs (DecidableEq (List Unit))

/-- Reference lookup.  A Rust `UnitRef` can never dangle, so the `none`
case of `Store.get?` below has no source counterpart; theorems about
concrete stores only use in-range indices. -/
def Store.get? (s : Store) (i : Nat) : Option Unit := List.get? s i

/-- Writing back through a `UnitRef` after mutating under the lock. -/
def Store.set (s : Store) (i : Nat) (u : Unit) : Store := List.set s i u

namespace Unit

/-- `Unit::new` (lines 29-52): fresh units have no dependencies, no
process probe and no child. -/
def new (name executable : String) (arguments : List String)
    (restart_policy : RestartPolicy) (uid gid : Nat) (enabled : Bool)
    (liveness_probe : Option LivenessProbe) : Unit :=
  { name := name, executable := executable, arguments := arguments,
    dependencies := [], restart_policy := restart_policy, uid := uid,
    gid := gid, enabled := enabled, liveness_probe := liveness_probe,
    process_probe := none, child := none }

/-- `Unit::add_dependency`. -/
def add_dependency (u : Unit) (dep : Nat) : Unit :=
  { u with dependencies := u.dependencies ++ [dep] }

/-- `Unit::get_name`. -/
def get_name (u : Unit) : String := u.name

/-- `Unit::get_restart_policy`. -/
def get_restart_policy (u : Unit) : RestartPolicy := u.restart_policy

/-- Modelled from the spec: `Unit::set_restart_policy`, the setter invoked
by `unit/unit_manager.rs` (`start_unit`/`stop_unit`) but absent from the
revision of `unit/unit.rs` in the tree; it assigns the policy field. -/
def set_restart_policy (u : Unit) (p : RestartPolicy) : Unit :=
  { u with restart_policy := p }

/-- `Unit::is_enabled`. -/
def is_enabled (u : Unit) : Bool := u.enabled

/-- `Unit::get_pid` (lines 112-117). -/
def get_pid (u : Unit) : Option Nat :=
  match u.child with
  | some c => some c.pid
  | none => none

/-- `Unit::get_process_probe_state` (lines 119-139): the probe's
published state, or `Undefined` when the unit has no process probe yet. -/
def get_process_probe_state (u : Unit) : ProbeState :=
  match u.process_probe with
  | some p => p.get_state
  | none => ProbeState.Undefined

/-- `Unit::get_liveness_probe_state` (lines 141-158). -/
def get_liveness_probe_state (u : Unit) : ProbeState :=
  match u.liveness_probe with
  | some p => p.get_state
  | none => ProbeState.Undefined

/-- `Unit::is_running` (lines 160-162): exactly the comparison
`get_process_probe_state() == ProbeState::Alive`. -/
def is_running (u : Unit) : Bool :=
  u.get_process_probe_state = ProbeState.Alive

/-- `Unit::can_start` (lines 239-268): enabled, not already running, and
every dependency (looked up through its reference) is running. -/
def can_start (u : Unit) (store : Store) : Bool :=
  if ¬ u.enabled then false
  else if u.is_running then false
  else u.dependencies.all fun d =>
    match store.get? d with
    | some dep => dep.is_running
    | none => false

/-- `Unit::can_stop` (lines 270-284): enabled and currently running. -/
def can_stop (u : Unit) : Bool :=
  if ¬ u.is_enabled then false
  else if ¬ u.is_running then false
  else true

/-- `Unit::start_probes` (lines 286-318): construct a fresh
`ProcessProbe` on the current pid, call its `run()` (recorded as a
`processProbeStarted` event), store it; then call `run()` on the liveness
probe when one is configured (recorded as `livenessProbeStarted`). -/
def start_probes (u : Unit) : Unit × List Event :=
  let step1 : Unit × List Event :=
    match u.get_pid with
    | some pid =>
      let probe := ProcessProbeSpec.new u.get_name pid 5
      ({ u with process_probe := some probe }, [Event.processProbeStarted pid])
    | none => (u, [])
  match step1.1.liveness_probe with
  | some _ => (step1.1, step1.2 ++ [Event.livenessProbeStarted])
  | none => step1

/-- `Unit::stop_probes` (lines 320-350): `request_stop` on both probes. -/
def stop_probes (u : Unit) : Unit :=
  { u with
    process_probe := u.process_probe.map ProcessProbeSpec.request_stop,
    liveness_probe := u.liveness_probe.map LivenessProbe.request_stop }

/-- `Unit::cleanup_process_handle` (lines 352-373): drop stdio handles and
clear the child. -/
def cleanup_process_handle (u : Unit) : Unit :=
  { u with child := none }

/-- `Unit::start` (lines 165-190): guard on `can_start`, spawn the child,
on success store the handle and immediately call `start_probes`; on a
spawn error clear the child and return the error. -/
def start (u : Unit) (env : Env) (store : Store) :
    Except String Bool × Unit × List Event :=
  if ¬ u.can_start store then
    (Except.error ("Cannot start unit " ++ u.name), u, [])
  else
    match env.spawn u.executable u.arguments with
    | Except.ok child =>
      let u1 := { u with child := some child }
      let r := u1.start_probes
      (Except.ok true, r.1, Event.spawnedChild child.pid :: r.2)
    | Except.error e =>
      (Except.error ("Unit " ++ u.name ++ " failed to start: " ++ e),
       { u with child := none }, [])

/-- `Unit::stop` (lines 193-217): guard on `can_stop`, kill the child, on
success stop the probes and release the handle; `Ok(false)` when there is
no child handle at all. -/
def stop (u : Unit) (env : Env) : Except String Bool × Unit × List Event :=
  if ¬ u.can_stop then
    (Except.error ("Cannot stop unit " ++ u.name), u, [])
  else
    match u.child with
    | some c =>
      match env.kill c.pid with
      | none =>
        (Except.ok true, u.stop_probes.cleanup_process_handle, [Event.childKilled c.pid])
      | some e =>
        (Except.error ("Unit " ++ u.name ++ " failed to stop: " ++ e), u, [])
    | none => (Except.ok false, u, [])

/-- `Unit::restart` (lines 219-236): `stop`, and only if that returned
`Ok`, `start`; either error is propagated unchanged. -/
def restart (u : Unit) (env : Env) (store : Store) :
    Except String Bool × Unit × List Event :=
  match u.stop env with
  | (Except.ok _, u1, evs1) =>
    match u1.start env store with
    | (Except.ok _, u2, evs2) => (Except.ok true, u2, evs1 ++ evs2)
    | (Except.error e, u2, evs2) => (Except.error e, u2, evs1 ++ evs2)
  | (Except.error e, u1, evs1) => (Except.error e, u1, evs1)

end Unit

/-- The spec's reading of `Unit::is_running` (spec §4.5: "True iff the
Process reports running *or* the ProcessProbe most recently reported
Alive"), stated over the same unit state: the process-level check is
`Process::is_running`'s observation applied to the unit's child handle. -/
def Unit.is_running_spec (u : Unit) : Bool :=
  childReportsRunning u.child || u.get_process_probe_state = ProbeState.Alive

/-- `UnitManager` from `tsm-unitman/src/unit/unit_manager.rs`: the ordered
unit list (as references into the store) and the shared stop flag. -/
structure UnitManager where
  units : List Nat
  stop_requested : Bool
  deriving DecidableEq, Repr

/-- The "locate by name" performed by the `for unit in &self.units` loops
of `start_unit`/`stop_unit`: the first unit in iteration order whose
`get_name()` equals `name`, together with its reference. -/
def firstMatch (store : Store) (name : String) : List Nat → Option (Nat × Unit)
  | [] => none
  | i :: rest =>
    match store.get? i with
    | some u => if u.name = name then some (i, u) else firstMatch store name rest
    | none => firstMatch store name rest

namespace UnitManager

/-- Body of `UnitManager::start_unit` once the named unit is found
(lines 52-73): no-op success when already running, otherwise `start`; on
success set the policy to `DisabledTemporarily` and start the probes; on
failure wrap the error. -/
def start_unit_found (env : Env) (store : Store) (i : Nat) (u : Unit) :
    Except String Bool × Store × List Event :=
  if u.is_running then (Except.ok true, store, [])
  else
    match u.start env store with
    | (Except.ok _, u1, evs) =>
      let u2 := u1.set_restart_policy RestartPolicy.DisabledTemporarily
      let r := u2.start_probes
      (Except.ok true, store.set i r.1, evs ++ r.2)
    | (Except.error e, u1, evs) =>
      (Except.error ("Error starting unit " ++ u.name ++ ": " ++ e),
       store.set i u1, evs)

/-- The iteration of `UnitManager::start_unit` (lines 48-83) over the
unit list; falls through to the `NotFound` error. -/
def start_unit_go (env : Env) (name : String) (store : Store) :
    List Nat → Except String Bool × Store × List Event
  | [] => (Except.error ("Unit " ++ name ++ " not found"), store, [])
  | i :: rest =>
    match store.get? i with
    | some u =>
      if u.name = name then start_unit_found env store i u
      else start_unit_go env name store rest
    | none => start_unit_go env name store rest

/-- `UnitManager::start_unit`. -/
def start_unit (mgr : UnitManager) (env : Env) (name : String) (store : Store) :
    Except String Bool × Store × List Event :=
  start_unit_go env name store mgr.units

/-- Body of `UnitManager::stop_unit` once the named unit is found
(lines 114-137): no-op success when already stopped, otherwise `stop`; on
success demote the policy to `DisabledTemporarily` only when
`restart = false`; on failure wrap the error. -/
def stop_unit_found (env : Env) (restart : Bool) (store : Store) (i : Nat) (u : Unit) :
    Except String Bool × Store × List Event :=
  if ¬ u.is_running then (Except.ok true, store, [])
  else
    match u.stop env with
    | (Except.ok _, u1, evs) =>
      let u2 := if ¬ restart
        then u1.set_restart_policy RestartPolicy.DisabledTemporarily
        else u1
      (Except.ok true, store.set i u2, evs)
    | (Except.error e, u1, evs) =>
      (Except.error ("Error stopping unit " ++ u.name ++ ": " ++ e),
       store.set i u1, evs)

/-- The iteration of `UnitManager::stop_unit` (lines 110-147). -/
def stop_unit_go (env : Env) (name : String) (restart : Bool) (store : Store) :
    List Nat → Except String Bool × Store × List Event
  | [] => (Except.error ("Unit " ++ name ++ " not found"), store, [])
  | i :: rest =>
    match store.get? i with
    | some u =>
      if u.name = name then stop_unit_found env restart store i u
      else stop_unit_go env name restart store rest
    | none => stop_unit_go env name restart store rest

/-- `UnitManager::stop_unit`. -/
def stop_unit (mgr : UnitManager) (env : Env) (name : String) (restart : Bool)
    (store : Store) : Except String Bool × Store × List Event :=
  stop_unit_go env name restart store mgr.units

/-- The single pass of `UnitManager::start_units` (lines 85-108) over the
unit list: skip running units, call `start` on the rest (errors are only
logged), threading the store through. -/
def start_units_go (env : Env) : List Nat → Store → Store × List Event
  | [], store => (store, [])
  | i :: rest, store =>
    match store.get? i with
    | some u =>
      if u.is_running then start_units_go env rest store
      else
        let r := u.start env store
        let next := start_units_go env rest (store.set i r.2.1)
        (next.1, r.2.2 ++ next.2)
    | none => start_units_go env rest store

/-- `UnitManager::start_units`: reset the stop flag, then one in-order
pass invoking `start` on every unit not already running.  The source
comments: "Note that we need to call this function several times until
all dependencies are started". -/
def start_units (mgr : UnitManager) (env : Env) (store : Store) :
    UnitManager × Store × List Event :=
  let r := start_units_go env mgr.units store
  ({ mgr with stop_requested := false }, r.1, r.2)

/-- One unit's treatment inside `UnitManager::monitor` (lines 235-265):
read `is_running`; if false, force `stop` (result only logged); then, if
(still using the captured flag) not running and the policy is `Always`,
invoke `restart` and on success `start_probes`. -/
def monitor_unit (env : Env) (store : Store) (i : Nat) : Store × List Event :=
  match store.get? i with
  | none => (store, [])
  | some u =>
    let running := u.is_running
    let afterStop : Store × Unit × List Event :=
      if ¬ running then
        let r := u.stop env
        (store.set i r.2.1, r.2.1, r.2.2)
      else (store, u, [])
    let store1 := afterStop.1
    let u1 := afterStop.2.1
    let evs1 := afterStop.2.2
    if ¬ running ∧ u1.get_restart_policy = RestartPolicy.Always then
      match u1.restart env store1 with
      | (Except.ok _, u2, evs2) =>
        let r := u2.start_probes
        (store1.set i r.1, evs1 ++ evs2 ++ r.2)
      | (Except.error _, u2, evs2) =>
        (store1.set i u2, evs1 ++ evs2)
    else (store1, evs1)

/-- The iteration of `UnitManager::monitor` over the unit list. -/
def monitor_go (env : Env) : List Nat → Store → Store × List Event
  | [], store => (store, [])
  | i :: rest, store =>
    let r := monitor_unit env store i
    let next := monitor_go env rest r.1
    (next.1, r.2 ++ next.2)

/-- `UnitManager::monitor`: the per-tick pass over all units. -/
def monitor (mgr : UnitManager) (env : Env) (store : Store) : Store × List Event :=
  monitor_go env mgr.units store

end UnitManager

/-- `UnitState` from `tsm-unitman/src/unit/unit_state.rs`. -/
inductive UnitState
  | Starting
  | Running
  | RunningAndHealthy
  | RunningButDegraded
  | Stopping
  | Stopped
  deriving DecidableEq, Repr

/-- Modelled from the spec (§3, §4.5): `Unit::get_state`, called by
`rpc/converters.rs` but absent from the revision of `unit/unit.rs` in the
tree.  The Running* variants are derived views: a unit holding a child is
`RunningAndHealthy` when the process probe reports `Alive` and
`RunningButDegraded` otherwise; a unit without a child is `Stopped`. -/
def Unit.get_state (u : Unit) : UnitState :=
  match u.child with
  | some _ =>
    if u.get_process_probe_state = ProbeState.Alive then UnitState.RunningAndHealthy
    else UnitState.RunningButDegraded
  | none => UnitState.Stopped

/-- Modelled from the spec: the protobuf integer codes used by the `as
i32` casts in `rpc/converters.rs` (the `.proto` schema is not in the
tree); codes follow declaration order. -/
def ProbeState.value : ProbeState → Int
  | ProbeState.Undefined => 0
  | ProbeState.Alive => 1
  | ProbeState.Dead => 2

/-- Modelled from the spec: integer code of a restart policy. -/
def RestartPolicy.value : RestartPolicy → Int
  | RestartPolicy.Always => 0
  | RestartPolicy.Never => 1
  | RestartPolicy.DisabledTemporarily => 2

/-- Modelled from the spec: integer code of a unit state. -/
def UnitState.value : UnitState → Int
  | UnitState.Starting => 0
  | UnitState.Running => 1
  | UnitState.RunningAndHealthy => 2
  | UnitState.RunningButDegraded => 3
  | UnitState.Stopping => 4
  | UnitState.Stopped => 5

/-- Modelled from the spec: `RpcMethod` of the `tsm_unitman_rpc` protobuf
schema (the `.proto` file is not in the tree; the variants are those the
handlers in `src/tsm-unitman/src/rpc` and the client reference). -/
inductive RpcMethod
  | Unknown
  | Ack
  | ListUnits
  | StartUnit
  | StopUnit
  deriving DecidableEq, Repr

namespace RpcMethod

/-- Modelled from the spec: the wire code of each method
(`RpcMethod::value()`); `Unknown` is the protobuf default 0. -/
def value : RpcMethod → Int
  | Unknown => 0
  | Ack => 1
  | ListUnits => 2
  | StartUnit => 3
  | StopUnit => 4

/-- Modelled from the spec: `RpcMethod::from_i32`, the inverse lookup
returning `None` for any integer that is not a declared method code. -/
def from_i32 (i : Int) : Option RpcMethod :=
  if i = 0 then some Unknown
  else if i = 1 then some Ack
  else if i = 2 then some ListUnits
  else if i = 3 then some StartUnit
  else if i = 4 then some StopUnit
  else none

end RpcMethod

/-- The `RpcRequest` envelope of `tsm_common_rpc` (`method: int32`,
`data: bytes`). -/
structure RpcRequest where
  method : Int
  data : List Nat
  deriving DecidableEq, Repr

/-- The `RpcResponse` envelope of `tsm_common_rpc`; `RpcResponse::new()`
yields the protobuf defaults (0, false, empty, empty). -/
structure RpcResponse where
  method : Int := 0
  status : Bool := false
  data : List Nat := []
  error : String := ""
  deriving DecidableEq, Repr

/-- `AckRequest` payload (`message: string`). -/
structure AckRequest where
  message : String
  deriving DecidableEq, Repr

/-- `AckResponse` payload (`message: string`). -/
structure AckResponse where
  message : String
  deriving DecidableEq, Repr

/-- `ListUnitsRequest` payload (empty message). -/
structure ListUnitsRequest where
  deriving DecidableEq, Repr

/-- `StopUnitRequest` payload (`unit_name: string`). -/
structure StopUnitRequest where
  unit_name : String
  deriving DecidableEq, Repr

/-- The protobuf `Unit` snapshot built by `rpc/converters.rs`. -/
structure ProtoUnit where
  name : String
  executable : String
  arguments : List String
  restart_policy : Int
  uid : Int
  gid : Int
  enabled : Bool
  process_probe_state : Int
  liveness_probe_state : Int
  state : Int
  pid : Int
  uptime : Nat
  deriving DecidableEq, Repr

/-- `ListUnitsResponse` payload (`units: Vec<Unit>`). -/
structure ListUnitsResponse where
  units : List ProtoUnit
  deriving DecidableEq, Repr

/-- The protobuf codec and the clock as the rpc layer sees them:
`Message::parse_from_bytes` for each request type, `write_to_bytes` for
each response type, and the per-unit uptime reading (`Unit::get_uptime`
reads the clock; the getter is absent from the revision of
`unit/unit.rs` in the tree and its result is supplied by name here). -/
structure ProtoEnv where
  parse_ack : List Nat → Except String AckRequest
  parse_list_units : List Nat → Except String ListUnitsRequest
  parse_stop_unit : List Nat → Except String StopUnitRequest
  ser_ack : AckResponse → Except String (List Nat)
  ser_list_units : ListUnitsResponse → Except String (List Nat)
  uptime_of : String → Option Nat

/-- `convert_unit_to_proto` from `rpc/converters.rs` (lines 20-52): the
per-unit snapshot (`-1` pid and `0` uptime when not available). -/
def convert_unit_to_proto (penv : ProtoEnv) (u : Unit) : ProtoUnit :=
  { name := u.get_name, executable := u.executable,
    arguments := u.arguments,
    restart_policy := u.get_restart_policy.value,
    uid := (u.uid : Int), gid := (u.gid : Int), enabled := u.is_enabled,
    process_probe_state := u.get_process_probe_state.value,
    liveness_probe_state := u.get_liveness_probe_state.value,
    state := u.get_state.value,
    pid := match u.get_pid with
      | some pid => (pid : Int)
      | none => -1,
    uptime := match penv.uptime_of u.get_name with
      | some t => t
      | none => 0 }

/-- `convert_units_to_proto` from `rpc/converters.rs` (lines 8-17). -/
def convert_units_to_proto (penv : ProtoEnv) (store : Store) (idxs : List Nat) :
    List ProtoUnit :=
  idxs.filterMap fun i => (store.get? i).map (convert_unit_to_proto penv)

namespace ResponseHandler

/-- `ResponseHandler::handle_unknown` from `rpc/rpc_server.rs`
(lines 64-71): `method = Unknown`, `status = false`,
`error = "Unknown method"`. -/
def handle_unknown : RpcResponse :=
  { method := RpcMethod.Unknown.value, status := false,
    error := "Unknown method" }

/-- `ResponseHandler::handle_ack` (lines 73-107): parse the body (on
failure echo the Ack method with the parse error), answer "pong"
serialised through the codec. -/
def handle_ack (penv : ProtoEnv) (request : RpcRequest) : RpcResponse :=
  match penv.parse_ack request.data with
  | Except.error e =>
    { method := RpcMethod.Ack.value, status := false,
      error := "Failed to parse ack request: " ++ e }
  | Except.ok _ =>
    let ack_response : AckResponse := { message := "pong" }
    match penv.ser_ack ack_response with
    | Except.ok bytes =>
      { method := RpcMethod.Ack.value, status := true, data := bytes }
    | Except.error e =>
      { method := RpcMethod.Ack.value, status := false,
        error := "Failed to serialize ack response: " ++ e }

/-- `ResponseHandler::handle_list_units` (lines 109-154): parse the body
(on failure echo ListUnits with the parse error), snapshot every unit
through `converters`, serialise. -/
def handle_list_units (penv : ProtoEnv) (mgr : UnitManager) (store : Store)
    (request : RpcRequest) : RpcResponse :=
  match penv.parse_list_units request.data with
  | Except.error e =>
    { method := RpcMethod.ListUnits.value, status := false,
      error := "Failed to parse list units request: " ++ e }
  | Except.ok _ =>
    let resp : ListUnitsResponse :=
      { units := convert_units_to_proto penv store mgr.units }
    match penv.ser_list_units resp with
    | Except.ok bytes =>
      { method := RpcMethod.ListUnits.value, status := true, data := bytes }
    | Except.error e =>
      { method := RpcMethod.ListUnits.value, status := false,
        error := "Failed to serialize list units response: " ++ e }

/-- `ResponseHandler::handle_stop_unit` (lines 156-195): parse the body
(on failure echo StopUnit with the parse error), then delegate to the
manager's `stop_unit`.  This revision calls the manager without the later
`restart` flag; the control-plane path fixes it at `false`
(`rpc/stop_unit.rs` line 29). -/
def handle_stop_unit (penv : ProtoEnv) (env : Env) (mgr : UnitManager)
    (store : Store) (request : RpcRequest) : RpcResponse × Store :=
  match penv.parse_stop_unit request.data with
  | Except.error e =>
    ({ method := RpcMethod.StopUnit.value, status := false,
       error := "Failed to parse stop unit request: " ++ e }, store)
  | Except.ok req =>
    match mgr.stop_unit env req.unit_name false store with
    | (Except.ok _, store1, _) =>
      ({ method := RpcMethod.StopUnit.value, status := true }, store1)
    | (Except.error e, store1, _) =>
      ({ method := RpcMethod.StopUnit.value, status := false,
         error := "Failed to stop unit: " ++ e }, store1)

/-- `ResponseHandler::handle_request` (lines 40-53): decode the method
code (`from_i32`, defaulting to `Unknown`), dispatch to the Ack,
ListUnits or StopUnit handler, everything else to `handle_unknown`. -/
def handle_request (penv : ProtoEnv) (env : Env) (mgr : UnitManager)
    (store : Store) (request : RpcRequest) : RpcResponse × Store :=
  let request_method :=
    match RpcMethod.from_i32 request.method with
    | some m => m
    | none => RpcMethod.Unknown
  match request_method with
  | RpcMethod.Ack => (handle_ack penv request, store)
  | RpcMethod.ListUnits => (handle_list_units penv mgr store request, store)
  | RpcMethod.StopUnit => handle_stop_unit penv env mgr store request
  | _ => (handle_unknown, store)

end ResponseHandler

/-- The request/reply loop of `tsm-ipc/src/rpc_server.rs` (`run`,
lines 35-95), restricted to iterations whose envelope decoded: each
received request is handed to the handler and exactly one reply is sent
before the next request is taken. -/
def serverRun (penv : ProtoEnv) (env : Env) (mgr : UnitManager) :
    List RpcRequest → Store → List RpcResponse × Store
  | [], store => ([], store)
  | r :: rest, store =>
    let step := ResponseHandler.handle_request penv env mgr store r
    let next := serverRun penv env mgr rest step.2
    (step.1 :: next.1, next.2)

/-- `handle_stop_unit` from `rpc/stop_unit.rs` (lines 8-47), the
control-plane StopUnit handler: parse the body, then call
`unit_manager.stop_unit(name, false)`. -/
def handle_stop_unit (penv : ProtoEnv) (env : Env) (mgr : UnitManager)
    (store : Store) (request : RpcRequest) : RpcResponse × Store :=
  match penv.parse_stop_unit request.data with
  | Except.error e =>
    ({ method := RpcMethod.StopUnit.value, status := false,
       error := "Failed to parse stop unit request: " ++ e }, store)
  | Except.ok req =>
    match mgr.stop_unit env req.unit_name false store with
    | (Except.ok _, store1, _) =>
      ({ method := RpcMethod.StopUnit.value, status := true }, store1)
    | (Except.error e, store1, _) =>
      ({ method := RpcMethod.StopUnit.value, status := false,
         error := "Failed to stop unit: " ++ e }, store1)

/-! Concrete fixtures used by the witnesses and counterexamples below.
They are states reachable by the embedded operations (annotated case by
case) together with a benign operating system: every spawn succeeds and
yields pid 42, every kill succeeds. -/

/-- A benign OS: spawning always succeeds (pid 42, still alive), killing
always succeeds. -/
def envOk : Env :=
  { spawn := fun _ _ => Except.ok { pid := 42, exit := none },
    kill := fun _ => none }

/-- A unit whose child has just been spawned but whose process probe does
not exist yet: the state of `self` at `unit/unit.rs:182` (inside `start`,
after `self.child = Some(..)` and before `start_probes`), and of any unit
whose probe task has not yet published its first observation. -/
def webUnit : Unit :=
  { Unit.new "web" "/usr/bin/webd" [] RestartPolicy.Always 0 0 true none with
    child := some { pid := 7, exit := none } }

/-- A crashed `Always` unit as the monitor sees it: the child exited with
status 1, the process probe has published `Dead`. -/
def cUnit : Unit :=
  { Unit.new "c" "/bin/false" [] RestartPolicy.Always 0 0 true none with
    process_probe := some
      { name := "c", pid := 9, interval_s := 5,
        state := ProbeState.Dead, stop_requested := false },
    child := some { pid := 9, exit := some 1 } }

/-- A running unit: live child, process probe reporting `Alive`. -/
def runningU : Unit :=
  { Unit.new "r" "/bin/rd" [] RestartPolicy.Never 0 0 true none with
    process_probe := some
      { name := "r", pid := 3, interval_s := 5,
        state := ProbeState.Alive, stop_requested := false },
    child := some { pid := 3, exit := none } }

/-- A freshly configured, never started unit. -/
def stoppedU : Unit :=
  Unit.new "s" "/bin/sd" [] RestartPolicy.Never 0 0 true none

/-- A stopped unit `a` with no dependencies. -/
def unitA : Unit :=
  Unit.new "a" "/bin/ad" [] RestartPolicy.Always 0 0 true none

/-- A stopped unit `b` depending on `a` (store index 0). -/
def unitB : Unit :=
  { Unit.new "b" "/bin/bd" [] RestartPolicy.Never 0 0 true none with
    dependencies := [0] }

/-- A liveness probe for unit `d` whose configured timeout is 0. -/
def zeroTimeoutProbe : LivenessProbe :=
  LivenessProbe.new "d" "/bin/check" [] 0 1

/-- A protobuf codec in which every body fails to parse with error
`"bad bytes"` and serialisation succeeds. -/
def penvBad : ProtoEnv :=
  { parse_ack := fun _ => Except.error "bad bytes",
    parse_list_units := fun _ => Except.error "bad bytes",
    parse_stop_unit := fun _ => Except.error "bad bytes",
    ser_ack := fun _ => Except.ok [1],
    ser_list_units := fun _ => Except.ok [2],
    uptime_of := fun _ => none }

/-- A protobuf codec in which every body parses (the stop body names unit
`r`) and serialisation succeeds. -/
def penvGood : ProtoEnv :=
  { parse_ack := fun _ => Except.ok { message := "ping" },
    parse_list_units := fun _ => Except.ok {},
    parse_stop_unit := fun _ => Except.ok { unit_name := "r" },
    ser_ack := fun _ => Except.ok [1],
    ser_list_units := fun _ => Except.ok [2],
    uptime_of := fun _ => none }

/-! Helper lemmas shared by the claim theorems. -/

theorem process_is_running_eq_childReportsRunning (p : Process) :
    (p.is_running).1 = childReportsRunning p.child := by
  cases hc : p.child with
  | none => simp [Process.is_running, Process.get_pid, Process.exit_code, hc, childReportsRunning]
  | some c =>
    cases he : c.exit with
    | none =>
      simp [Process.is_running, Process.get_pid, Process.exit_code, hc, he, childReportsRunning]
    | some code =>
      simp [Process.is_running, Process.get_pid, Process.exit_code, hc, he, childReportsRunning]

/-- A string with a non-empty prefix is non-empty. -/
theorem append_ne_empty_left (s e : String) (h3 : 0 < s.length) : s ++ e ≠ "" := by
  intro h
  have h2 : (s ++ e).length = 0 := by rw [h]; rfl
  rw [String.length_append] at h2
  omega

/-- The `start_unit` loop is the "locate by name, then act on the first
match" scheme. -/
theorem start_unit_go_eq (env : Env) (name : String) (store : Store) (idxs : List Nat) :
    UnitManager.start_unit_go env name store idxs =
      match firstMatch store name idxs with
      | none => (Except.error ("Unit " ++ name ++ " not found"), store, [])
      | some (i, u) => UnitManager.start_unit_found env store i u := by
  induction idxs with
  | nil => rfl
  | cons i rest ih =>
    simp only [UnitManager.start_unit_go, firstMatch]
    cases h : store.get? i with
    | none => simpa using ih
    | some u =>
      by_cases hn : u.name = name
      · simp [hn]
      · simp [hn, ih]

/-- The `stop_unit` loop is the "locate by name, then act on the first
match" scheme. -/
theorem stop_unit_go_eq (env : Env) (name : String) (restart : Bool)
    (store : Store) (idxs : List Nat) :
    UnitManager.stop_unit_go env name restart store idxs =
      match firstMatch store name idxs with
      | none => (Except.error ("Unit " ++ name ++ " not found"), store, [])
      | some (i, u) => UnitManager.stop_unit_found env restart store i u := by
  induction idxs with
  | nil => rfl
  | cons i rest ih =>
    simp only [UnitManager.stop_unit_go, firstMatch]
    cases h : store.get? i with
    | none => simpa using ih
    | some u =>
      by_cases hn : u.name = name
      · simp [hn]
      · simp [hn, ih]

/-! The claim theorems. -/

/-- Claim C1, counterexample: a unit holding a live child (so the
process-level check of `Process::is_running` reports running) whose
process probe has not published `Alive` — precisely the state of `self`
at `unit/unit.rs:182`, after the spawn and before `start_probes` — is
reported *not* running by `Unit::is_running`, although the claimed
disjunction is true.  `is_running` is not a disjunction of the two
checks. -/
theorem c1_live_child_not_reported_running :
    childReportsRunning webUnit.child = true
  ∧ webUnit.is_running_spec = true
  ∧ webUnit.is_running = false :=
  ⟨rfl, rfl, rfl⟩

/-- Claim C1, amended: `Unit::is_running` is solely the check
`get_process_probe_state() == ProbeState::Alive`; it implies the spec's
disjunction but not conversely — a unit whose child is alive while the
probe state is not `Alive` is reported not running. -/
theorem c1_is_running_is_probe_check_only (u : Unit) :
    (u.is_running = true ↔ u.get_process_probe_state = ProbeState.Alive)
  ∧ (u.is_running = true → u.is_running_spec = true) := by
  constructor
  · simp [Unit.is_running]
  · intro h
    simp [Unit.is_running] at h
    simp [Unit.is_running_spec, h]

theorem c1_is_running_is_probe_check_only_witness :
    runningU.is_running = true ∧ runningU.is_running_spec = true := by
  have h := c1_is_running_is_probe_check_only runningU
  exact ⟨h.1.mpr rfl, h.2 (h.1.mpr rfl)⟩

/-- Claim C2: on a monitor tick over a crashed `Always` unit (child
exited, probe state `Dead`) whose executable spawns fine, `restart`
cannot succeed: `Unit::restart` first calls `stop`, whose `can_stop`
guard rejects a unit that is not running, so the monitor pass leaves the
store unchanged, performs no spawn (no events at all), and the recorded
restart error is the stop error.  The unit is never brought back up,
contradicting the claim (and `monitor`'s own "Unit restarted" logging
intent). -/
theorem c2_monitor_cannot_restart_crashed_always_unit :
    cUnit.get_restart_policy = RestartPolicy.Always
  ∧ cUnit.is_running = false
  ∧ envOk.spawn cUnit.executable cUnit.arguments = Except.ok { pid := 42, exit := none }
  ∧ (cUnit.restart envOk [cUnit]).1 = Except.error "Cannot stop unit c"
  ∧ UnitManager.monitor ⟨[0], false⟩ envOk [cUnit] = ([cUnit], []) :=
  ⟨rfl, rfl, rfl, rfl, rfl⟩

/-- Claim C7: the published state of a liveness-probe cycle is exactly
`Alive` when the probe child exits 0 within the timeout, `Dead` when it
exits non-zero or the timeout fires (the child having been terminated by
`terminate_for_timeout`), and `Undefined` when the spawn fails or the
wait returns an OS error. -/
theorem c7_liveness_probe_outcomes (p : LivenessProbe) (d code : Nat) (m : String) :
    (p.probe (Spawned.ok (ChildRun.runs d code))).state =
      (if d ≤ p.timeout_s then
        (if code = 0 then ProbeState.Alive else ProbeState.Dead)
       else ProbeState.Dead)
  ∧ (p.probe (Spawned.ok (ChildRun.osError m))).state = ProbeState.Undefined
  ∧ (p.probe (Spawned.err m)).state = ProbeState.Undefined := by
  refine ⟨?_, rfl, rfl⟩
  by_cases hd : d ≤ p.timeout_s
  · by_cases hc : code = 0 <;>
      simp [LivenessProbe.probe, controlledWait, LivenessProbe.set_state, hd, hc]
  · simp [LivenessProbe.probe, controlledWait, LivenessProbe.set_state, hd]

/-- Claim C8, counterexample: a liveness probe configured with
`timeout_s = 0` does take the timeout branch — `liveness_probe.rs:139`
passes the raw value as the time limit, so a probe child needing 1 second
(and which would have exited 0) is killed at the 0-second limit and
`Dead` is published.  The claim says the timeout branch never fires. -/
theorem c8_zero_timeout_fires_timeout :
    zeroTimeoutProbe.timeout_s = 0
  ∧ controlledWait zeroTimeoutProbe.timeout_s (ChildRun.runs 1 0) = WaitOutcome.timedOut
  ∧ (zeroTimeoutProbe.probe (Spawned.ok (ChildRun.runs 1 0))).state = ProbeState.Dead :=
  ⟨rfl, rfl, rfl⟩

/-- Claim C8, amended: in `liveness_probe.rs` a `timeout_s` of 0 is a
zero-second time limit — only a child finishing instantly escapes the
timeout branch, everything else publishes `Dead`; the `0 ⇒ 3600 s`
("effectively unbounded") reinterpretation exists only in
`process_probe.rs`'s command probe, whose timeout branch still exists but
fires only past 3600 seconds. -/
theorem c8_zero_timeout_semantics (p : LivenessProbe) (q : ProcessProbe)
    (d code : Nat) (hp : p.timeout_s = 0) (hq : q.timeout_s = 0) :
    (p.probe (Spawned.ok (ChildRun.runs d code))).state =
      (if d = 0 then (if code = 0 then ProbeState.Alive else ProbeState.Dead)
       else ProbeState.Dead)
  ∧ ProcessProbe.effectiveTimeout q.timeout_s = 3600
  ∧ q.probe true (Spawned.ok (ChildRun.runs d code)) =
      (if d ≤ 3600 then
        (if code = 0 then Except.ok true
         else Except.error ("Process exited with non-zero exit code: " ++ toString code))
       else Except.error ("Process timed out after " ++ toString q.timeout_s ++ " seconds")) := by
  refine ⟨?_, by rw [hq]; rfl, ?_⟩
  · by_cases hd : d = 0
    · by_cases hc : code = 0 <;>
        simp [LivenessProbe.probe, controlledWait, LivenessProbe.set_state, hp, hd, hc]
    · have : ¬ d ≤ 0 := by omega
      simp [LivenessProbe.probe, controlledWait, LivenessProbe.set_state, hp, hd, this]
  · by_cases hd : d ≤ 3600
    · by_cases hc : code = 0 <;>
        simp [ProcessProbe.probe, ProcessProbe.effectiveTimeout, controlledWait, hq, hd, hc]
    · simp [ProcessProbe.probe, ProcessProbe.effectiveTimeout, controlledWait, hq, hd]

theorem c8_zero_timeout_semantics_witness :
    (zeroTimeoutProbe.probe (Spawned.ok (ChildRun.runs 1 0))).state = ProbeState.Dead
  ∧ ProcessProbe.effectiveTimeout
      ({ executable := "/bin/check", arguments := [], timeout_s := 0,
         interval_s := 1 } : ProcessProbe).timeout_s = 3600 := by
  have h := c8_zero_timeout_semantics zeroTimeoutProbe
    { executable := "/bin/check", arguments := [], timeout_s := 0, interval_s := 1 }
    1 0 rfl rfl
  exact ⟨by simpa using h.1, h.2.1⟩

/-- Claim C3, counterexample: with stopped units `a` and `b` (`b`
depending on `a`) and an OS on which every spawn succeeds, `b.start` does
not recursively start `a`: it returns the `can_start` error and performs
no action at all (no events).  A single in-order `start_units` pass in
the order `[b, a]` spawns only `a`; `b` comes out exactly as it went in,
still stopped — declaration order is not irrelevant and one pass does not
suffice. -/
theorem c3_start_does_not_recurse_into_dependencies :
    (0 : Nat) ∈ unitB.dependencies
  ∧ unitA.is_running = false
  ∧ unitB.start envOk [unitA, unitB] = (Except.error "Cannot start unit b", unitB, [])
  ∧ (UnitManager.start_units ⟨[1, 0], false⟩ envOk [unitA, unitB]).2.2 =
      [Event.spawnedChild 42, Event.processProbeStarted 42]
  ∧ (UnitManager.start_units ⟨[1, 0], false⟩ envOk [unitA, unitB]).2.1.get? 1 = some unitB
  ∧ unitB.child = none := by
  refine ⟨by decide, rfl, by decide, by decide, by decide, rfl⟩

/-- Claim C3, amended: `Unit::start` is not dependency-starting —
whenever some dependency is not reported running, `start` fails with the
`can_start` error and does nothing (the unit is unchanged and no spawn or
probe start happens, in particular the dependency's `start` is never
invoked); `start_units` is a single non-recursive pass, which per the
source comment "we need to call this function several times until all
dependencies are started" only brings a dependent up once its
dependencies are already running. -/
theorem c3_start_fails_when_dependency_not_running (env : Env) (store : Store)
    (u : Unit) (d : Nat) (hd : d ∈ u.dependencies)
    (hnr : ∀ dep, store.get? d = some dep → dep.is_running = false) :
    u.start env store = (Except.error ("Cannot start unit " ++ u.name), u, []) := by
  have hf : (match store.get? d with
      | some dep => dep.is_running
      | none => false) = false := by
    cases hg : store.get? d with
    | none => rfl
    | some dep => simpa using hnr dep hg
  have hall : (u.dependencies.all fun x =>
      match store.get? x with
      | some dep => dep.is_running
      | none => false) = false := by
    cases hb : (u.dependencies.all fun x =>
        match store.get? x with
        | some dep => dep.is_running
        | none => false) with
    | false => rfl
    | true =>
      have := List.all_eq_true.mp hb d hd
      rw [hf] at this
      exact absurd this (by simp)
  have hcs : u.can_start store = false := by
    unfold Unit.can_start
    by_cases he : u.enabled
    · by_cases hr : u.is_running <;> simp [he, hr, hall]
    · simp [he]
  simp [Unit.start, hcs]

theorem c3_start_fails_when_dependency_not_running_witness :
    unitB.start envOk [unitA, unitB] = (Except.error "Cannot start unit b", unitB, []) := by
  have h := c3_start_fails_when_dependency_not_running envOk [unitA, unitB] unitB 0
    (by decide)
    (by intro dep hdep
        have : unitA = dep := by simpa [Store.get?] using hdep
        rw [← this]; rfl)
  simpa using h

/-- Claim C4, counterexample: at the `Unit` level neither precondition
violation is a no-op success — `start` on a running unit and `stop` on a
stopped unit both return errors (`can_start`/`can_stop` reject them), as
the source's own tests `cannot_start_if_already_started` and
`cannot_stop_if_already_stopped` assert. -/
theorem c4_start_stop_error_not_noop :
    runningU.is_running = true
  ∧ (runningU.start envOk [runningU]).1 = Except.error "Cannot start unit r"
  ∧ stoppedU.is_running = false
  ∧ (stoppedU.stop envOk).1 = Except.error "Cannot stop unit s" :=
  ⟨rfl, rfl, rfl, rfl⟩

/-- Claim C4, amended: `Unit::start` on a running unit and `Unit::stop`
on a stopped unit return errors (leaving the unit untouched); the
idempotent no-op success lives one level up — `UnitManager::start_unit`
and `UnitManager::stop_unit` short-circuit to `Ok(true)` when the named
unit is already running resp. already stopped. -/
theorem c4_precondition_violations (env : Env) (store : Store) (u : Unit)
    (mgr : UnitManager) (name : String) (i : Nat) :
    (u.is_running = true →
      u.start env store = (Except.error ("Cannot start unit " ++ u.name), u, []))
  ∧ (u.is_running = false →
      u.stop env = (Except.error ("Cannot stop unit " ++ u.name), u, []))
  ∧ (firstMatch store name mgr.units = some (i, u) → u.is_running = true →
      mgr.start_unit env name store = (Except.ok true, store, []))
  ∧ (firstMatch store name mgr.units = some (i, u) → u.is_running = false →
      mgr.stop_unit env name true store = (Except.ok true, store, [])
      ∧ mgr.stop_unit env name false store = (Except.ok true, store, [])) := by
  refine ⟨?_, ?_, ?_, ?_⟩
  · intro h
    have hcs : u.can_start store = false := by
      unfold Unit.can_start
      by_cases he : u.enabled <;> simp [he, h]
    simp [Unit.start, hcs]
  · intro h
    have hcs : u.can_stop = false := by
      unfold Unit.can_stop
      by_cases he : u.enabled <;> simp [Unit.is_enabled, he, h]
    simp [Unit.stop, hcs]
  · intro hfm h
    simp [UnitManager.start_unit, start_unit_go_eq, hfm, UnitManager.start_unit_found, h]
  · intro hfm h
    constructor <;>
      simp [UnitManager.stop_unit, stop_unit_go_eq, hfm, UnitManager.stop_unit_found, h]

theorem c4_precondition_violations_witness :
    runningU.start envOk [runningU] = (Except.error "Cannot start unit r", runningU, [])
  ∧ stoppedU.stop envOk = (Except.error "Cannot stop unit s", stoppedU, [])
  ∧ UnitManager.start_unit ⟨[0], false⟩ envOk "r" [runningU] = (Except.ok true, [runningU], [])
  ∧ UnitManager.stop_unit ⟨[0], false⟩ envOk "s" true [stoppedU] = (Except.ok true, [stoppedU], []) := by
  have h1 := c4_precondition_violations envOk [runningU] runningU ⟨[0], false⟩ "r" 0
  have h2 := c4_precondition_violations envOk [stoppedU] stoppedU ⟨[0], false⟩ "s" 0
  exact ⟨h1.1 rfl, h2.2.1 rfl, h1.2.2.1 rfl rfl, (h2.2.2.2 rfl rfl).1⟩

/-- Claim C6, counterexample: a successful `Unit::start` does start probe
tasks — `unit/unit.rs:182` calls `start_probes` directly, so the events
of a successful start contain the `run()` of the freshly constructed
process probe.  The claim says the background tasks remain un-started
until the manager starts them. -/
theorem c6_start_starts_probe_tasks :
    (stoppedU.start envOk []).1 = Except.ok true
  ∧ (stoppedU.start envOk []).2.2 = [Event.spawnedChild 42, Event.processProbeStarted 42]
  ∧ Event.processProbeStarted 42 ∈ (stoppedU.start envOk []).2.2 := by
  refine ⟨rfl, rfl, by decide⟩

/-- Claim C6, amended: a successful `Unit::start` constructs a fresh
`ProcessProbe` bound to the new pid, stores it, and *immediately starts
it* (and runs the configured liveness probe) through its own
`start_probes` call; probes do not wait for the manager. -/
theorem c6_start_runs_probes_itself (env : Env) (store : Store) (u : Unit) (c : Child)
    (hcan : u.can_start store = true)
    (hsp : env.spawn u.executable u.arguments = Except.ok c) :
    (u.start env store).1 = Except.ok true
  ∧ (u.start env store).2.1.process_probe = some (ProcessProbeSpec.new u.name c.pid 5)
  ∧ Event.processProbeStarted c.pid ∈ (u.start env store).2.2
  ∧ (u.liveness_probe.isSome → Event.livenessProbeStarted ∈ (u.start env store).2.2) := by
  cases hlp : u.liveness_probe <;>
    simp [Unit.start, hcan, hsp, Unit.start_probes, Unit.get_pid, Unit.get_name,
      ProcessProbeSpec.new, hlp]

theorem c6_start_runs_probes_itself_witness :
    (stoppedU.start envOk []).1 = Except.ok true
  ∧ Event.processProbeStarted 42 ∈ (stoppedU.start envOk []).2.2 := by
  have h := c6_start_runs_probes_itself envOk [] stoppedU { pid := 42, exit := none }
    (by decide) rfl
  exact ⟨h.1, h.2.2.1⟩

/-- Claim C5: `UnitManager::start_unit(name)` — when no unit in the
manager's list is named `name`, the not-found error; when the first named
unit is already running, a no-op `Ok(true)` leaving the store untouched;
otherwise `start` is invoked and on success the unit's restart policy is
set to `RestartPolicy::DisabledTemporarily` (the third variant of the
policy type) and its probes are started (a `run()` of the process probe
bound to the fresh pid is among the events). -/
theorem c5_start_unit_contract (env : Env) (mgr : UnitManager) (name : String)
    (store : Store) (i : Nat) (u : Unit) (c : Child) :
    (firstMatch store name mgr.units = none →
      mgr.start_unit env name store =
        (Except.error ("Unit " ++ name ++ " not found"), store, []))
  ∧ (firstMatch store name mgr.units = some (i, u) → u.is_running = true →
      mgr.start_unit env name store = (Except.ok true, store, []))
  ∧ (firstMatch store name mgr.units = some (i, u) → u.is_running = false →
      u.can_start store = true → env.spawn u.executable u.arguments = Except.ok c →
      ∃ evs, mgr.start_unit env name store =
          (Except.ok true,
           store.set i
             { u with child := some c,
                      restart_policy := RestartPolicy.DisabledTemporarily,
                      process_probe := some (ProcessProbeSpec.new u.name c.pid 5) },
           evs)
        ∧ Event.processProbeStarted c.pid ∈ evs) := by
  refine ⟨?_, ?_, ?_⟩
  · intro hfm
    simp [UnitManager.start_unit, start_unit_go_eq, hfm]
  · intro hfm hrun
    simp [UnitManager.start_unit, start_unit_go_eq, hfm, UnitManager.start_unit_found, hrun]
  · intro hfm hrun hcan hsp
    cases hlp : u.liveness_probe with
    | none =>
      refine ⟨[Event.spawnedChild c.pid, Event.processProbeStarted c.pid,
               Event.processProbeStarted c.pid], ?_, by simp⟩
      simp [UnitManager.start_unit, start_unit_go_eq, hfm, UnitManager.start_unit_found,
        hrun, Unit.start, hcan, hsp, Unit.start_probes, Unit.get_pid, Unit.get_name,
        Unit.set_restart_policy, ProcessProbeSpec.new, hlp]
    | some lp =>
      refine ⟨[Event.spawnedChild c.pid, Event.processProbeStarted c.pid,
               Event.livenessProbeStarted, Event.processProbeStarted c.pid,
               Event.livenessProbeStarted], ?_, by simp⟩
      simp [UnitManager.start_unit, start_unit_go_eq, hfm, UnitManager.start_unit_found,
        hrun, Unit.start, hcan, hsp, Unit.start_probes, Unit.get_pid, Unit.get_name,
        Unit.set_restart_policy, ProcessProbeSpec.new, hlp]

theorem c5_start_unit_contract_witness :
    UnitManager.start_unit ⟨[0], false⟩ envOk "zzz" [stoppedU] =
      (Except.error "Unit zzz not found", [stoppedU], [])
  ∧ (∃ evs, UnitManager.start_unit ⟨[0], false⟩ envOk "s" [stoppedU] =
      (Except.ok true,
       Store.set [stoppedU] 0
         { stoppedU with child := some { pid := 42, exit := none },
                         restart_policy := RestartPolicy.DisabledTemporarily,
                         process_probe := some (ProcessProbeSpec.new stoppedU.name 42 5) },
       evs)
     ∧ Event.processProbeStarted 42 ∈ evs) := by
  have h1 := c5_start_unit_contract envOk ⟨[0], false⟩ "zzz" [stoppedU] 0 stoppedU
    { pid := 42, exit := none }
  have h2 := c5_start_unit_contract envOk ⟨[0], false⟩ "s" [stoppedU] 0 stoppedU
    { pid := 42, exit := none }
  exact ⟨h1.1 rfl, h2.2.2 rfl rfl (by decide) rfl⟩

/-- Claim C10: stopping a running unit through
`UnitManager::stop_unit(name, restart)` kills the child and clears the
handle in both cases, but only the `restart = false` call — the one the
control plane's StopUnit handler issues (`rpc/stop_unit.rs:29`) — demotes
the restart policy to `DisabledTemporarily`; with `restart = true` the
policy field comes out exactly as it went in. -/
theorem c10_stop_unit_restart_flag (env : Env) (penv : ProtoEnv)
    (mgr : UnitManager) (name : String) (store : Store) (i : Nat) (u : Unit)
    (c : Child) (req : RpcRequest)
    (hfm : firstMatch store name mgr.units = some (i, u))
    (hrun : u.is_running = true) (hen : u.enabled = true)
    (hc : u.child = some c) (hk : env.kill c.pid = none) :
    (mgr.stop_unit env name true store =
      (Except.ok true, store.set i (u.stop_probes.cleanup_process_handle),
       [Event.childKilled c.pid])
     ∧ (u.stop_probes.cleanup_process_handle).restart_policy = u.restart_policy
     ∧ (u.stop_probes.cleanup_process_handle).child = none)
  ∧ (mgr.stop_unit env name false store =
      (Except.ok true,
       store.set i ((u.stop_probes.cleanup_process_handle).set_restart_policy
         RestartPolicy.DisabledTemporarily),
       [Event.childKilled c.pid])
     ∧ ((u.stop_probes.cleanup_process_handle).set_restart_policy
          RestartPolicy.DisabledTemporarily).restart_policy =
        RestartPolicy.DisabledTemporarily)
  ∧ (penv.parse_stop_unit req.data = Except.ok { unit_name := name } →
      handle_stop_unit penv env mgr store req =
        ({ method := RpcMethod.StopUnit.value, status := true },
         (mgr.stop_unit env name false store).2.1)) := by
  have hcs : u.can_stop = true := by
    simp [Unit.can_stop, Unit.is_enabled, hen, hrun]
  have hstop : u.stop env =
      (Except.ok true, u.stop_probes.cleanup_process_handle, [Event.childKilled c.pid]) := by
    simp [Unit.stop, hcs, hc, hk]
  have hfalse : mgr.stop_unit env name false store =
      (Except.ok true,
       store.set i ((u.stop_probes.cleanup_process_handle).set_restart_policy
         RestartPolicy.DisabledTemporarily),
       [Event.childKilled c.pid]) := by
    simp [UnitManager.stop_unit, stop_unit_go_eq, hfm, UnitManager.stop_unit_found,
      hrun, hstop]
  refine ⟨⟨?_, rfl, rfl⟩, ⟨hfalse, rfl⟩, ?_⟩
  · simp [UnitManager.stop_unit, stop_unit_go_eq, hfm, UnitManager.stop_unit_found,
      hrun, hstop]
  · intro hp
    simp [handle_stop_unit, hp, hfalse]

theorem c10_stop_unit_restart_flag_witness :
    UnitManager.stop_unit ⟨[0], false⟩ envOk "r" true [runningU] =
      (Except.ok true, Store.set [runningU] 0 (runningU.stop_probes.cleanup_process_handle),
       [Event.childKilled 3])
  ∧ (runningU.stop_probes.cleanup_process_handle).restart_policy = RestartPolicy.Never
  ∧ handle_stop_unit penvGood envOk ⟨[0], false⟩ [runningU] ⟨4, [5]⟩ =
      ({ method := RpcMethod.StopUnit.value, status := true },
       (UnitManager.stop_unit ⟨[0], false⟩ envOk "r" false [runningU]).2.1) := by
  have h := c10_stop_unit_restart_flag envOk penvGood ⟨[0], false⟩ "r" [runningU] 0 runningU
    { pid := 3, exit := none } ⟨4, [5]⟩ rfl rfl rfl rfl rfl
  exact ⟨h.1.1, h.1.2.1, h.2.2 rfl⟩

/-- Claim C9: a request whose method code decodes to no known method is
answered by `handle_unknown` — `status = false`, the non-empty error
"Unknown method", and the `Unknown` method code echoed; a request for a
body-parsing method (Ack, ListUnits, StopUnit) whose body fails to parse
is answered with `status = false`, a non-empty error describing the parse
failure, and the request's own method code echoed; and the server loop
answers every received request — one reply per request, then it accepts
the next. -/
theorem c9_error_replies_and_server_liveness (penv : ProtoEnv) (env : Env)
    (mgr : UnitManager) (store : Store) (req : RpcRequest) (e : String)
    (reqs : List RpcRequest) :
    (RpcMethod.from_i32 req.method = none →
      ResponseHandler.handle_request penv env mgr store req =
        ({ method := RpcMethod.Unknown.value, status := false,
           error := "Unknown method" }, store)
      ∧ ("Unknown method" : String) ≠ "")
  ∧ (req.method = RpcMethod.Ack.value → penv.parse_ack req.data = Except.error e →
      ResponseHandler.handle_request penv env mgr store req =
        ({ method := req.method, status := false,
           error := "Failed to parse ack request: " ++ e }, store)
      ∧ "Failed to parse ack request: " ++ e ≠ "")
  ∧ (req.method = RpcMethod.ListUnits.value →
      penv.parse_list_units req.data = Except.error e →
      ResponseHandler.handle_request penv env mgr store req =
        ({ method := req.method, status := false,
           error := "Failed to parse list units request: " ++ e }, store)
      ∧ "Failed to parse list units request: " ++ e ≠ "")
  ∧ (req.method = RpcMethod.StopUnit.value →
      penv.parse_stop_unit req.data = Except.error e →
      ResponseHandler.handle_request penv env mgr store req =
        ({ method := req.method, status := false,
           error := "Failed to parse stop unit request: " ++ e }, store)
      ∧ "Failed to parse stop unit request: " ++ e ≠ "")
  ∧ (serverRun penv env mgr reqs store).1.length = reqs.length := by
  have hlen : ∀ (rs : List RpcRequest) (st : Store),
      (serverRun penv env mgr rs st).1.length = rs.length := by
    intro rs
    induction rs with
    | nil => intro st; rfl
    | cons r rest ih => intro st; simp [serverRun, ih]
  refine ⟨?_, ?_, ?_, ?_, hlen reqs store⟩
  · intro hm
    exact ⟨by simp [ResponseHandler.handle_request, hm, ResponseHandler.handle_unknown],
      by decide⟩
  · intro hm hp
    refine ⟨?_, append_ne_empty_left _ _ (by decide)⟩
    simp [ResponseHandler.handle_request, hm, RpcMethod.from_i32, RpcMethod.value,
      ResponseHandler.handle_ack, hp]
  · intro hm hp
    refine ⟨?_, append_ne_empty_left _ _ (by decide)⟩
    simp [ResponseHandler.handle_request, hm, RpcMethod.from_i32, RpcMethod.value,
      ResponseHandler.handle_list_units, hp]
  · intro hm hp
    refine ⟨?_, append_ne_empty_left _ _ (by decide)⟩
    simp [ResponseHandler.handle_request, hm, RpcMethod.from_i32, RpcMethod.value,
      ResponseHandler.handle_stop_unit, hp]

theorem c9_error_replies_and_server_liveness_witness :
    ResponseHandler.handle_request penvBad envOk ⟨[0], false⟩ [runningU] ⟨999, [5]⟩ =
      ({ method := 0, status := false, error := "Unknown method" }, [runningU])
  ∧ ResponseHandler.handle_request penvBad envOk ⟨[0], false⟩ [runningU] ⟨1, [5]⟩ =
      ({ method := 1, status := false,
         error := "Failed to parse ack request: bad bytes" }, [runningU])
  ∧ (serverRun penvBad envOk ⟨[0], false⟩ [⟨999, [5]⟩, ⟨1, [5]⟩] [runningU]).1.length = 2 := by
  have h1 := c9_error_replies_and_server_liveness penvBad envOk ⟨[0], false⟩ [runningU]
    ⟨999, [5]⟩ "bad bytes" [⟨999, [5]⟩, ⟨1, [5]⟩]
  have h2 := c9_error_replies_and_server_liveness penvBad envOk ⟨[0], false⟩ [runningU]
    ⟨1, [5]⟩ "bad bytes" [⟨999, [5]⟩, ⟨1, [5]⟩]
  exact ⟨(h1.1 (by decide)).1, (h2.2.1 rfl rfl).1, h1.2.2.2.2⟩

end Tsm
